import Mathlib

/-
Verification development for the imgrszr batch image resizer
(src/src/main.rs). The definitions below are a shallow embedding of the
crop-selection arithmetic, the per-item pipeline, the batch loop and the
top-level driver. Machine integers (u32, i32) are modelled as Nat / Int
with explicit reduction modulo 2^32 where the source performs a cast;
fallible steps return Except; filesystem and codec outcomes that the
source only branches on (decode success, save success, ...) are inputs
of the embedding.
-/

set_option autoImplicit false

deriving instance DecidableEq for Except

namespace Imgrszr

/-- The square crop rectangle computed by the crop selector: offsets and
side length in pixels of the original image (u32 values in the source,
modelled as Nat). -/
structure CropRegion where
  x : Nat
  y : Nat
  side : Nat
deriving DecidableEq, Repr

/-- A detected face bounding box as reported by the detector
(`rustface::FaceInfo::bbox`): x/y are i32 (modelled as Int), width/height
are u32 (modelled as Nat). -/
structure BBox where
  x : Int
  y : Int
  w : Nat
  h : Nat
deriving DecidableEq, Repr

/-- Modulus of 32-bit machine integers. -/
def U32MOD : Int := 2 ^ 32

/-- Rust's `as i32` cast / wrapping i32 arithmetic: reduce into the
two's-complement range [-2^31, 2^31). -/
def wrapI32 (n : Int) : Int :=
  let m := n % U32MOD
  if m < 2 ^ 31 then m else m - U32MOD

/-- Rust's `as u32` cast of an i32 value: two's-complement
reinterpretation, i.e. reduction modulo 2^32 into [0, 2^32). -/
def castI32toU32 (n : Int) : Nat := (n % U32MOD).toNat

/-- `center_crop` (src/src/main.rs lines 172-178): `dimension =
min(width, height)`, `x = width/2 - dimension/2`, `y = height/2 -
dimension/2`, all in u32 arithmetic (the subtractions cannot underflow
since dimension ≤ width and dimension ≤ height). -/
def center_crop (width height : Nat) : CropRegion :=
  let dimension := min width height
  ⟨width / 2 - dimension / 2, height / 2 - dimension / 2, dimension⟩

/-- `face_center_x` (line 160): `face.bbox().x() + (face.bbox().width() / 2) as i32`.
The u32 half-width is cast `as i32` (wrapping) and added with i32
(wrapping) addition. -/
def face_center_x (b : BBox) : Int := wrapI32 (b.x + wrapI32 (Int.ofNat (b.w / 2)))

/-- `face_center_y` (line 161): same as `face_center_x` for the y axis. -/
def face_center_y (b : BBox) : Int := wrapI32 (b.y + wrapI32 (Int.ofNat (b.h / 2)))

/-- The crop rectangle computed by `face_gravity_crop`
(src/src/main.rs lines 142-170) as a function of the image dimensions and
the (optional) best face returned by the detector. In the face branch
(lines 158-166) the i32 face-center coordinates are cast `as u32`
(wrapping) and the half-side is subtracted with `saturating_sub`
(Nat subtraction). Otherwise the result is `center_crop`. -/
def face_gravity_crop (width height : Nat) (face : Option BBox) : CropRegion :=
  let dimension := min width height
  match face with
  | some b =>
    let x := castI32toU32 (face_center_x b) - dimension / 2
    let y := castI32toU32 (face_center_y b) - dimension / 2
    ⟨x, y, dimension⟩
  | none => center_crop width height

/-- Rust's `str::split(sep)` on a character separator, over the string's
character list: splitting the empty string yields one empty piece,
`"ax"` yields two pieces, and so on. -/
def split_char (sep : Char) : List Char → List (List Char)
  | [] => [[]]
  | c :: rest =>
    let r := split_char sep rest
    if c = sep then [] :: r
    else
      match r with
      | [] => [[c]]
      | g :: gs => (c :: g) :: gs

/-- ASCII lowercasing of one character (Rust `to_lowercase` restricted to
the ASCII range, which covers every recognized format token). -/
def ascii_to_lower (c : Char) : Char :=
  if 'A' ≤ c ∧ c ≤ 'Z' then Char.ofNat (c.toNat + 32) else c

/-- One step of Rust's `u32::from_str` digit loop: accumulate a decimal
digit, failing on a non-digit or on overflow past u32::MAX. -/
def parse_u32_step (acc : Option Nat) (c : Char) : Option Nat :=
  match acc with
  | none => none
  | some a =>
    if c.isDigit then
      let v := a * 10 + (c.toNat - Char.toNat '0')
      if v < 2 ^ 32 then some v else none
    else none

/-- Rust's `u32::from_str` on a character list: at least one digit
required, every character a decimal digit, value at most u32::MAX. -/
def parse_u32_digits (cs : List Char) : Option Nat :=
  match cs with
  | [] => none
  | _ => cs.foldl parse_u32_step (some 0)

/-- Rust's `"...".parse::<u32>()` on a character list: an optional
leading plus sign followed by one or more decimal digits fitting in u32;
anything else fails. -/
def parse_u32_chars (cs : List Char) : Option Nat :=
  match cs with
  | [] => none
  | c :: rest => if c = '+' then parse_u32_digits rest else parse_u32_digits (c :: rest)

/-- Rust's `"...".parse::<u32>()` on a string. -/
def parse_u32 (s : String) : Option Nat := parse_u32_chars s.data

/-- Errors of the per-item pipeline (`process_image`), one constructor
per distinct failure path in src/src/main.rs lines 101-129. -/
inductive ImgError where
  | invalidSizeFormat
  | parseIntError
  | openError
  | unsupportedFormat (tok : String)
  | stemError
  | createDirError
  | saveError
deriving DecidableEq, Repr

/-- The size-argument handling at the start of `process_image`
(lines 102-107): split on 'x', require exactly two components, parse
each as u32 (the first parse failure propagates). -/
def parse_size (size : String) : Except ImgError (Nat × Nat) :=
  match split_char 'x' size.data with
  | [ws, hs] =>
    match parse_u32_chars ws, parse_u32_chars hs with
    | some w, some h => .ok (w, h)
    | _, _ => .error .parseIntError
  | _ => .error .invalidSizeFormat

/-- The encoder formats of the `image` crate that `determine_image_format`
can return (src/src/main.rs lines 131-140). -/
inductive ImageFormat where
  | png
  | jpeg
  | gif
  | bmp
  | tiff
deriving DecidableEq, Repr

/-- `determine_image_format` (lines 131-140): lowercase the token, map
the six recognized spellings to an encoder (`jpg` and `jpeg` both to the
Jpeg encoder), anything else to an unsupported-format error carrying the
original token. -/
def determine_image_format (image_format : String) : Except String ImageFormat :=
  let lowered := image_format.data.map ascii_to_lower
  if lowered = "png".data then .ok .png
  else if lowered = "jpg".data then .ok .jpeg
  else if lowered = "jpeg".data then .ok .jpeg
  else if lowered = "gif".data then .ok .gif
  else if lowered = "bmp".data then .ok .bmp
  else if lowered = "tiff".data then .ok .tiff
  else .error ("Unsupported format: " ++ image_format)

/-- `determine_output_path` (lines 180-197), over the path components the
source inspects: the source path's file stem (`None` when the path has no
stem, which is the error branch), the format token, the optional output
directory and the source path's parent (`None` models `parent()` failing,
where the source falls back to "."). The filename is built exactly as the
source does: stem, then the literal `"_resized."`, then
`"_resized." ++ extension` where `extension` is the token itself (the
`jpeg` conditional at line 188 returns the token unchanged in both
branches). Joining is modelled as `/`-separated concatenation. -/
def determine_output_path (file_stem : Option String) (format : String)
    (output_dir : Option String) (src_parent : Option String) : Option String :=
  match file_stem with
  | none => none
  | some stem =>
    let new_filename := stem
    let new_filename := new_filename ++ "_resized."
    let extension := if format == "jpeg" then "jpeg" else format
    let new_filename := new_filename ++ ("_resized." ++ extension)
    match output_dir with
    | some dir => some (dir ++ "/" ++ new_filename)
    | none => some ((src_parent.getD ".") ++ "/" ++ new_filename)

/-- Observable pipeline work, in the order the per-item pipeline performs
it: size parsing, image decoding (`image::open`), detector-model parsing
(`rustface::read_model` on the embedded `MODEL_DATA` bytes), face
detection, cropping, Lanczos3 resampling, encoder lookup, output
directory creation, and saving. -/
inductive Event where
  | parseSize
  | decode
  | readModel
  | detectFaces
  | cropOp
  | resample
  | formatCheck
  | createDir
  | save
deriving DecidableEq, Repr

/-- The per-item inputs the pipeline branches on: whether `image::open`
succeeds, the decoded dimensions, the detector's best face (if any), the
source path's stem and parent, and whether directory creation and saving
succeed. Immutable per task. -/
structure ImageInput where
  decodeOk : Bool
  width : Nat
  height : Nat
  face : Option BBox
  stem : Option String
  srcParent : Option String
  mkdirOk : Bool
  saveOk : Bool
deriving DecidableEq, Repr

/-- `process_image` (src/src/main.rs lines 101-129): parse the size
string, open the image, run `face_gravity_crop` (which parses the model
and detects before cropping), resample, look up the encoder for the
format token, resolve the output path, create the missing directory and
save. Returns the list of performed work events together with the result
(the output path on success). The event order mirrors the statement
order of the source: the encoder lookup (line 115) happens only after
decode, crop and resample (lines 109-113). -/
def process_image (size image_format : String) (output_dir : Option String)
    (img : ImageInput) : List Event × Except ImgError String :=
  match parse_size size with
  | .error e => ([.parseSize], .error e)
  | .ok _dims =>
    if img.decodeOk then
      let _crop := face_gravity_crop img.width img.height img.face
      let tr := [Event.parseSize, .decode, .readModel, .detectFaces, .cropOp, .resample]
      match determine_image_format image_format with
      | .error _ => (tr ++ [.formatCheck], .error (.unsupportedFormat image_format))
      | .ok _fmt =>
        match determine_output_path img.stem image_format output_dir img.srcParent with
        | none => (tr ++ [.formatCheck], .error .stemError)
        | some path =>
          if img.mkdirOk then
            if img.saveOk then (tr ++ [.formatCheck, .createDir, .save], .ok path)
            else (tr ++ [.formatCheck, .createDir, .save], .error .saveError)
          else (tr ++ [.formatCheck, .createDir], .error .createDirError)
    else ([.parseSize, .decode], .error .openError)

/-- One directory entry as `process_directory` sees it: either
`fs::read_dir` yielded an error for it, or it is a file with the
per-item inputs above. -/
inductive DirEntry where
  | readErr
  | file (img : ImageInput)
deriving DecidableEq, Repr

/-- The observable counters of one batch run: `error!` log lines,
`warn!` log lines, successfully produced outputs, and progress-bar
increments (`pb.inc(1)` runs once per entry that survives the
`filter_map`). -/
structure BatchReport where
  errors : Nat
  warns : Nat
  successes : Nat
  progress : Nat
deriving DecidableEq, Repr

/-- The contribution of a single directory entry to the batch counters
(the body of the `filter_map`/`for_each` at lines 75-95): an unreadable
entry is logged as an error and dropped before the progress bar; a file
that `image::open` rejects is logged as a warning; otherwise
`process_image` runs and its failure, if any, is logged as an error.
Every surviving entry advances the progress bar exactly once. -/
def entry_report (size image_format : String) (output_dir : Option String) :
    DirEntry → BatchReport
  | .readErr => ⟨1, 0, 0, 0⟩
  | .file img =>
    if img.decodeOk then
      match (process_image size image_format output_dir img).2 with
      | .ok _ => ⟨0, 0, 1, 1⟩
      | .error _ => ⟨1, 0, 0, 1⟩
    else ⟨0, 1, 0, 1⟩

/-- The pipeline work performed for a single directory entry: the decode
attempt of the `image::open(..).is_ok()` filter, then, when it succeeds,
everything `process_image` does. An unreadable entry triggers no image
work. -/
def entry_trace (size image_format : String) (output_dir : Option String) :
    DirEntry → List Event
  | .readErr => []
  | .file img =>
    if img.decodeOk then Event.decode :: (process_image size image_format output_dir img).1
    else [Event.decode]

/-- Pointwise sum of batch counters. -/
def add_report (a b : BatchReport) : BatchReport :=
  ⟨a.errors + b.errors, a.warns + b.warns, a.successes + b.successes, a.progress + b.progress⟩

/-- The counters accumulated over all entries. The source updates them
through a thread-safe progress bar and per-task logging from a rayon
`par_iter`; since every entry is processed independently exactly once and
only counters are shared, the parallel fold is modelled as a sequential
fold of per-entry contributions. -/
def batch_report (size image_format : String) (output_dir : Option String)
    (entries : List DirEntry) : BatchReport :=
  entries.foldr (fun e acc => add_report (entry_report size image_format output_dir e) acc)
    ⟨0, 0, 0, 0⟩

/-- `process_directory` (lines 64-99): process every entry, then return
`Ok(())` unconditionally — per-item outcomes never influence the returned
result. (The `fs::read_dir` failure is handled in `run` below.) -/
def process_directory (size image_format : String) (output_dir : Option String)
    (entries : List DirEntry) : BatchReport × Except String Unit :=
  (batch_report size image_format output_dir entries, .ok ())

/-- All pipeline work performed by the batch, in entry order. -/
def batch_trace (size image_format : String) (output_dir : Option String)
    (entries : List DirEntry) : List Event :=
  (entries.map (entry_trace size image_format output_dir)).foldr (· ++ ·) []

/-- The environment of one run as `run`/`main` observe it: whether the
CLI path exists and is a directory, whether `fs::read_dir` succeeds, the
listed entries and the parsed CLI options. -/
structure TopEnv where
  pathExists : Bool
  isDir : Bool
  readDirOk : Bool
  entries : List DirEntry
  size : String
  image_format : String
  output_path : Option String

/-- `run` (src/src/main.rs lines 44-62): error when the path does not
exist, error when it is not a directory, propagate a directory-listing
failure, otherwise run the batch. The batch report is returned as the
observable outcome of the successful run. -/
def run (env : TopEnv) : Except String BatchReport :=
  if !env.pathExists then .error "The provided path does not exist"
  else if env.isDir then
    if env.readDirOk then
      .ok (process_directory env.size env.image_format env.output_path env.entries).1
    else .error "Failed to read directory"
  else .error "Provided path is not a directory."

/-- `main` (lines 38-42): call `run`; on error print `Error: ...` to
stderr and fall through. The function returns `()` in the source, so the
process exit status is 0 on every path; the model returns the optional
stderr line together with that exit status. -/
def main (env : TopEnv) : Option String × Nat :=
  match run env with
  | .ok _ => (none, 0)
  | .error e => (some ("Error: " ++ e), 0)

/-! Concrete inputs used by witnesses and counterexamples. -/

/-- A decodable image whose pipeline run succeeds end to end. -/
def goodImg : ImageInput := ⟨true, 100, 80, none, some "photo", some "d", true, true⟩

/-- A decodable, face-free image used in batch scenarios. -/
def imgA : ImageInput := ⟨true, 50, 40, none, some "a", some "d", true, true⟩

/-- A corrupt (undecodable) file used in batch scenarios. -/
def imgB : ImageInput := ⟨false, 0, 0, none, some "b", some "d", true, true⟩

/-- A decodable image with a detected face used in batch scenarios. -/
def imgC : ImageInput := ⟨true, 30, 60, some ⟨5, 5, 10, 10⟩, some "c", some "d", true, true⟩

/-- An environment whose CLI path does not exist. -/
def badEnv : TopEnv := ⟨false, false, false, [], "2000x2000", "jpg", none⟩

/-! Predicates on directory entries used to state the batch properties. -/

/-- An entry that `fs::read_dir` yielded without error. -/
def is_readable : DirEntry → Bool
  | .readErr => false
  | .file _ => true

/-- A readable entry that `image::open` rejects (corrupt/undecodable). -/
def is_corrupt : DirEntry → Bool
  | .readErr => false
  | .file img => !img.decodeOk

/-- A readable entry that `image::open` accepts. -/
def is_decodable_file : DirEntry → Bool
  | .readErr => false
  | .file img => img.decodeOk

/-- "No other per-item failure": if the entry is a decodable file, its
pipeline run succeeds. -/
def decodable_ok (size image_format : String) (output_dir : Option String) :
    DirEntry → Bool
  | .readErr => true
  | .file img => !img.decodeOk || (process_image size image_format output_dir img).2.isOk

/-! Helper lemmas about the wrapping casts. -/

/-- `wrapI32` always lands in the i32 range. -/
theorem wrapI32_bounds (n : Int) : -(2 ^ 31) ≤ wrapI32 n ∧ wrapI32 n < 2 ^ 31 := by
  simp only [wrapI32, U32MOD]
  have h1 : 0 ≤ n % (2 ^ 32 : Int) := Int.emod_nonneg n (by norm_num)
  have h2 : n % (2 ^ 32 : Int) < 2 ^ 32 := Int.emod_lt_of_pos n (by norm_num)
  split <;> omega

/-- The computed face-center x coordinate is an i32 value. -/
theorem face_center_x_bounds (b : BBox) :
    -(2 ^ 31) ≤ face_center_x b ∧ face_center_x b < 2 ^ 31 := by
  unfold face_center_x
  exact wrapI32_bounds _

/-! C1 -/

/-- C1: evaluating the output path resolver on a source file with stem
`photo`: the destination filename is NOT `{stem}_resized.{token}` — the
resolver appends the `_resized.` segment twice, producing
`photo_resized._resized.jpg`. The directory placement (output directory
when given, otherwise the source parent) behaves as claimed. -/
theorem C1_output_path_eval :
    determine_output_path (some "photo") "jpg" none (some "d")
      = some "d/photo_resized._resized.jpg"
  ∧ determine_output_path (some "photo") "jpeg" (some "out") none
      = some "out/photo_resized._resized.jpeg"
  ∧ determine_output_path (some "photo") "jpg" none (some "d")
      ≠ some "d/photo_resized.jpg" := by decide

/-! C2 -/

/-- C2 (counterexample): for a 1000×500 image with a face bounding box at
x = 900, the face path produces x = 700 with side = 500, so
x + side = 1200 > 1000 and the claimed invariant conjunct
`x + side ≤ width` fails. -/
theorem C2_crop_invariant_counterexample :
    (face_gravity_crop 1000 500 (some ⟨900, 200, 100, 100⟩)).x = 700
  ∧ (face_gravity_crop 1000 500 (some ⟨900, 200, 100, 100⟩)).side = 500
  ∧ ¬ ((face_gravity_crop 1000 500 (some ⟨900, 200, 100, 100⟩)).x
        + (face_gravity_crop 1000 500 (some ⟨900, 200, 100, 100⟩)).side ≤ 1000) := by
  decide

/-- C2 (amended): every crop region produced by the crop selector
satisfies `0 ≤ x`, `0 ≤ y` and `side = min(width, height)`; the two
upper-bound conjuncts `x + side ≤ width` and `y + side ≤ height`
additionally hold on the no-face path (the face path only clamps on the
low side and can overrun the right or bottom edge). -/
theorem C2_crop_invariant_amended (width height : Nat) (face : Option BBox) :
    (face_gravity_crop width height face).side = min width height
  ∧ 0 ≤ (face_gravity_crop width height face).x
  ∧ 0 ≤ (face_gravity_crop width height face).y
  ∧ (face = none →
      (face_gravity_crop width height face).x
          + (face_gravity_crop width height face).side ≤ width
    ∧ (face_gravity_crop width height face).y
          + (face_gravity_crop width height face).side ≤ height) := by
  cases face with
  | some b => exact ⟨rfl, Nat.zero_le _, Nat.zero_le _, fun h => nomatch h⟩
  | none =>
    refine ⟨rfl, Nat.zero_le _, Nat.zero_le _, fun _ => ⟨?_, ?_⟩⟩
    · show width / 2 - min width height / 2 + min width height ≤ width
      omega
    · show height / 2 - min width height / 2 + min width height ≤ height
      omega

/-- C2 witness: the amended in-bounds conjuncts at a concrete no-face
input. -/
theorem C2_crop_invariant_amended_witness :
    (face_gravity_crop 10 4 none).x + (face_gravity_crop 10 4 none).side ≤ 10
  ∧ (face_gravity_crop 10 4 none).y + (face_gravity_crop 10 4 none).side ≤ 4 :=
  (C2_crop_invariant_amended 10 4 none).2.2.2 rfl

/-! C3 -/

/-- C3 (counterexample): for a 6×3 image with no face, the code computes
x = 6/2 − 3/2 = 2, while the claimed formula (W−S)/2 gives 1; the two
integer-division formulas disagree. -/
theorem C3_center_crop_counterexample :
    (face_gravity_crop 6 3 none).x = 2
  ∧ (6 - 3) / 2 = 1
  ∧ (face_gravity_crop 6 3 none).x ≠ (6 - 3) / 2 := by decide

/-- C3 (amended): when no face clears the threshold the crop region
equals exactly x = W/2 − S/2, y = H/2 − S/2 with S = min(W, H) under
integer division, and that region is fully in-bounds. -/
theorem C3_center_crop_amended (W H : Nat) :
    face_gravity_crop W H none
      = ⟨W / 2 - min W H / 2, H / 2 - min W H / 2, min W H⟩
  ∧ (face_gravity_crop W H none).x + (face_gravity_crop W H none).side ≤ W
  ∧ (face_gravity_crop W H none).y + (face_gravity_crop W H none).side ≤ H := by
  refine ⟨rfl, ?_, ?_⟩
  · show W / 2 - min W H / 2 + min W H ≤ W
    omega
  · show H / 2 - min W H / 2 + min W H ≤ H
    omega

/-! C8 -/

/-- C8: the concrete 1000×500 scenario with face bounding box
(700, 200, 100, 100): center (750, 250), side 500, crop rectangle
(500, 0, 500, 500). -/
theorem C8_concrete_scenario :
    face_center_x ⟨700, 200, 100, 100⟩ = 750
  ∧ face_center_y ⟨700, 200, 100, 100⟩ = 250
  ∧ face_gravity_crop 1000 500 (some ⟨700, 200, 100, 100⟩) = ⟨500, 0, 500⟩ := by
  decide

/-! C4 -/

/-- C4 (counterexample): with the unrecognized token `webp` on a
decodable image, the per-item pipeline does fail with the
unsupported-format error, but only after decode, crop and resample have
already been performed — not before, as claimed. -/
theorem C4_format_check_counterexample :
    (process_image "2000x2000" "webp" none goodImg).2
      = .error (.unsupportedFormat "webp")
  ∧ Event.decode ∈ (process_image "2000x2000" "webp" none goodImg).1
  ∧ Event.cropOp ∈ (process_image "2000x2000" "webp" none goodImg).1
  ∧ Event.resample ∈ (process_image "2000x2000" "webp" none goodImg).1 := by decide

/-- C4 (amended): for every unrecognized format token the per-item task
fails with an unsupported-format error after decode, crop and resample
but before any directory creation or save; and `jpg`/`jpeg` select the
same encoder. -/
theorem C4_format_check_amended (size fmt : String) (outDir : Option String)
    (img : ImageInput) (wh : Nat × Nat) (msg : String)
    (hs : parse_size size = .ok wh) (hd : img.decodeOk = true)
    (hf : determine_image_format fmt = .error msg) :
    (process_image size fmt outDir img).2 = .error (.unsupportedFormat fmt)
  ∧ Event.createDir ∉ (process_image size fmt outDir img).1
  ∧ Event.save ∉ (process_image size fmt outDir img).1
  ∧ Event.decode ∈ (process_image size fmt outDir img).1
  ∧ Event.cropOp ∈ (process_image size fmt outDir img).1
  ∧ Event.resample ∈ (process_image size fmt outDir img).1
  ∧ determine_image_format "jpg" = determine_image_format "jpeg" := by
  have hpi : process_image size fmt outDir img
      = ([Event.parseSize, .decode, .readModel, .detectFaces, .cropOp, .resample]
          ++ [Event.formatCheck], .error (.unsupportedFormat fmt)) := by
    unfold process_image
    rw [hs]
    simp [hd, hf]
  have htr : (process_image size fmt outDir img).1
      = [Event.parseSize, .decode, .readModel, .detectFaces, .cropOp, .resample]
          ++ [Event.formatCheck] := by rw [hpi]
  have hres : (process_image size fmt outDir img).2
      = .error (.unsupportedFormat fmt) := by rw [hpi]
  exact ⟨hres, by rw [htr]; decide, by rw [htr]; decide, by rw [htr]; decide,
    by rw [htr]; decide, by rw [htr]; decide, by decide⟩

/-- C4 witness: the amended behavior at the concrete token `tga`. -/
theorem C4_format_check_amended_witness :
    (process_image "2000x2000" "tga" none goodImg).2
      = .error (.unsupportedFormat "tga")
  ∧ Event.createDir ∉ (process_image "2000x2000" "tga" none goodImg).1
  ∧ Event.save ∉ (process_image "2000x2000" "tga" none goodImg).1
  ∧ Event.decode ∈ (process_image "2000x2000" "tga" none goodImg).1
  ∧ Event.cropOp ∈ (process_image "2000x2000" "tga" none goodImg).1
  ∧ Event.resample ∈ (process_image "2000x2000" "tga" none goodImg).1
  ∧ determine_image_format "jpg" = determine_image_format "jpeg" :=
  C4_format_check_amended "2000x2000" "tga" none goodImg (2000, 2000)
    "Unsupported format: tga" (by decide) (by decide) (by decide)

/-! C5 -/

/-- C5 (counterexample): with a missing root path — a top-level fatal
condition — `run` fails, `main` prints the error, and the process exit
status is still 0, not non-zero as claimed. -/
theorem C5_exit_status_counterexample :
    run badEnv = .error "The provided path does not exist"
  ∧ (main badEnv).2 = 0 := by decide

/-- C5 (amended): the process exit status is 0 in every environment;
`run` succeeds exactly when the root path exists, is a directory and can
be listed — independently of how many per-item failures the entries
produce — and a top-level fatal condition only yields an `Error:` line on
stderr, never a non-zero exit status. -/
theorem C5_exit_status_amended (env : TopEnv) :
    (main env).2 = 0
  ∧ ((run env).isOk = true
      ↔ env.pathExists = true ∧ env.isDir = true ∧ env.readDirOk = true)
  ∧ ((main env).1 = none
      ↔ env.pathExists = true ∧ env.isDir = true ∧ env.readDirOk = true) := by
  obtain ⟨pe, dir, rd, entries, size, fmt, out⟩ := env
  cases pe <;> cases dir <;> cases rd <;>
    simp [main, run, Except.isOk, Except.toBool, process_directory]

/-! C10 -/

/-- C10: in the face path the i32 face-center coordinate is cast to u32
with wraparound (mod 2^32) semantics before the saturating subtraction:
for a non-negative computed center the crop offset equals
max(0, center − side/2), while for a negative computed center the cast
wraps and the resulting offset exceeds the image width (for any image
whose width plus half-side stays below 2^31) instead of clamping to 0. -/
theorem C10_wraparound_cast (width height : Nat) (b : BBox) :
    (0 ≤ face_center_x b →
      (((face_gravity_crop width height (some b)).x : Int)
        = max 0 (face_center_x b - ((min width height / 2 : Nat) : Int))))
  ∧ (face_center_x b < 0 → width + min width height / 2 < 2 ^ 31 →
      width < (face_gravity_crop width height (some b)).x) := by
  have hc := face_center_x_bounds b
  constructor
  · intro h0
    show ((castI32toU32 (face_center_x b) - min width height / 2 : Nat) : Int) = _
    simp only [castI32toU32, U32MOD]
    omega
  · intro hneg hw
    show width < castI32toU32 (face_center_x b) - min width height / 2
    simp only [castI32toU32, U32MOD]
    omega

/-- C10 witness: both branches at concrete inputs — a face with
non-negative center at (650, 250) in a 1000×500 image, and a face whose
computed center x is −50 in a 100×80 image, whose crop offset 2^32 − 90
dwarfs the image width. -/
theorem C10_wraparound_cast_witness :
    (((face_gravity_crop 1000 500 (some ⟨600, 200, 100, 100⟩)).x : Int)
      = max 0 (face_center_x ⟨600, 200, 100, 100⟩ - ((min 1000 500 / 2 : Nat) : Int)))
  ∧ 100 < (face_gravity_crop 100 80 (some ⟨-60, 10, 20, 20⟩)).x :=
  ⟨(C10_wraparound_cast 1000 500 ⟨600, 200, 100, 100⟩).1 (by decide),
   (C10_wraparound_cast 100 80 ⟨-60, 10, 20, 20⟩).2 (by decide) (by decide)⟩

/-! Helper lemmas about per-entry batch contributions. -/

/-- Unfolding the batch counters over a cons cell. -/
theorem batch_report_cons (s f : String) (o : Option String) (e : DirEntry)
    (es : List DirEntry) :
    batch_report s f o (e :: es)
      = add_report (entry_report s f o e) (batch_report s f o es) := rfl

/-- Every surviving (readable) entry advances the progress counter by
exactly one, failures included. -/
theorem entry_report_progress (s f : String) (o : Option String) (e : DirEntry) :
    (entry_report s f o e).progress = if is_readable e then 1 else 0 := by
  cases e with
  | readErr => rfl
  | file img =>
    cases hd : img.decodeOk with
    | false => simp [entry_report, hd, is_readable]
    | true =>
      cases h : (process_image s f o img).2 <;>
        simp [entry_report, hd, h, is_readable]

/-- Exactly the corrupt entries produce a warning log line. -/
theorem entry_report_warns (s f : String) (o : Option String) (e : DirEntry) :
    (entry_report s f o e).warns = if is_corrupt e then 1 else 0 := by
  cases e with
  | readErr => rfl
  | file img =>
    cases hd : img.decodeOk with
    | false => simp [entry_report, hd, is_corrupt]
    | true =>
      cases h : (process_image s f o img).2 <;>
        simp [entry_report, hd, h, is_corrupt]

/-- When an entry's pipeline run does not fail, it contributes one
success exactly when it is a decodable file. -/
theorem entry_report_successes (s f : String) (o : Option String) (e : DirEntry)
    (h2 : decodable_ok s f o e = true) :
    (entry_report s f o e).successes = if is_decodable_file e then 1 else 0 := by
  cases e with
  | readErr => rfl
  | file img =>
    cases hd : img.decodeOk with
    | false => simp [entry_report, hd, is_decodable_file]
    | true =>
      cases h : (process_image s f o img).2 with
      | error err =>
        exfalso
        simp [decodable_ok, hd, h, Except.isOk, Except.toBool] at h2
      | ok v => simp [entry_report, hd, h, is_decodable_file]

/-- The overall progress and warning counters of a batch. -/
theorem batch_report_counts (s f : String) (o : Option String)
    (entries : List DirEntry) :
    (batch_report s f o entries).progress = (entries.filter is_readable).length
  ∧ (batch_report s f o entries).warns = (entries.filter is_corrupt).length := by
  induction entries with
  | nil => exact ⟨rfl, rfl⟩
  | cons e es ih =>
    rw [batch_report_cons]
    constructor
    · show (entry_report s f o e).progress + (batch_report s f o es).progress = _
      rw [entry_report_progress, ih.1, List.filter_cons]
      cases hr : is_readable e <;> simp [hr] <;> omega
    · show (entry_report s f o e).warns + (batch_report s f o es).warns = _
      rw [entry_report_warns, ih.2, List.filter_cons]
      cases hr : is_corrupt e <;> simp [hr] <;> omega

/-- The success counter of a batch in which no decodable entry's
pipeline run fails. -/
theorem batch_report_successes (s f : String) (o : Option String) :
    ∀ entries : List DirEntry, (∀ e ∈ entries, decodable_ok s f o e = true) →
      (batch_report s f o entries).successes
        = (entries.filter is_decodable_file).length := by
  intro entries
  induction entries with
  | nil => intro _; rfl
  | cons e es ih =>
    intro h2
    rw [batch_report_cons]
    show (entry_report s f o e).successes + (batch_report s f o es).successes = _
    rw [entry_report_successes s f o e (h2 e (by simp)),
      ih (fun x hx => h2 x (List.mem_cons_of_mem _ hx)), List.filter_cons]
    cases hd : is_decodable_file e <;> simp [hd] <;> omega

/-- Among readable entries, decodable and corrupt ones partition the
list. -/
theorem readable_partition :
    ∀ entries : List DirEntry, (∀ e ∈ entries, is_readable e = true) →
      (entries.filter is_decodable_file).length
        + (entries.filter is_corrupt).length = entries.length := by
  intro entries
  induction entries with
  | nil => intro _; rfl
  | cons e es ih =>
    intro h
    have he := h e (by simp)
    have hes := fun x hx => h x (List.mem_cons_of_mem _ hx)
    cases e with
    | readErr => simp [is_readable] at he
    | file img =>
      have hih := ih hes
      rw [List.filter_cons, List.filter_cons]
      cases hd : img.decodeOk <;>
        simp [is_decodable_file, is_corrupt, hd] <;> omega

/-! C6 -/

/-- C6: batch isolation — the batch loop always returns success and
visits every readable entry exactly once (no early abort, per-item
failures never block siblings); and when every entry is readable and no
decodable entry's pipeline run fails, a directory of N entries with K
corrupt ones produces exactly N − K successful outputs and K warning
logs. -/
theorem C6_batch_isolation (size fmt : String) (outDir : Option String)
    (entries : List DirEntry) :
    ((process_directory size fmt outDir entries).2 = .ok ()
      ∧ (process_directory size fmt outDir entries).1.progress
          = (entries.filter is_readable).length)
  ∧ ((∀ e ∈ entries, is_readable e = true) →
     (∀ e ∈ entries, decodable_ok size fmt outDir e = true) →
       (process_directory size fmt outDir entries).1.successes
           = entries.length - (entries.filter is_corrupt).length
     ∧ (process_directory size fmt outDir entries).1.warns
           = (entries.filter is_corrupt).length) := by
  constructor
  · exact ⟨rfl, (batch_report_counts size fmt outDir entries).1⟩
  · intro h1 h2
    have hs := batch_report_successes size fmt outDir entries h2
    have hp := readable_partition entries h1
    have hw := (batch_report_counts size fmt outDir entries).2
    constructor
    · show (batch_report size fmt outDir entries).successes = _
      omega
    · show (batch_report size fmt outDir entries).warns = _
      omega

/-- C6 witness: a concrete batch of three readable entries, one corrupt:
two successes and one warning. -/
theorem C6_batch_isolation_witness :
    (process_directory "2000x2000" "jpg" none
        [.file imgA, .file imgB, .file imgC]).1.successes = 2
  ∧ (process_directory "2000x2000" "jpg" none
        [.file imgA, .file imgB, .file imgC]).1.warns = 1 := by
  have h := (C6_batch_isolation "2000x2000" "jpg" none
      [.file imgA, .file imgB, .file imgC]).2 (by decide) (by decide)
  exact ⟨h.1.trans (by decide), h.2.trans (by decide)⟩

/-! C7 -/

/-- C7 (counterexample): the size string `0x5` has a zero component, yet
it parses successfully and the per-item task runs to completion instead
of failing with a format error. -/
theorem C7_zero_size_counterexample :
    parse_size "0x5" = .ok (0, 5)
  ∧ (process_image "0x5" "jpg" none goodImg).2
      = .ok "d/photo_resized._resized.jpg" := by decide

/-- A size-parse failure makes `process_image` stop before any image
work. -/
theorem process_image_size_error (size fmt : String) (outDir : Option String)
    (img : ImageInput) (e : ImgError) (h : parse_size size = .error e) :
    process_image size fmt outDir img = ([Event.parseSize], .error e) := by
  unfold process_image
  rw [h]

/-- `parse_size` succeeds exactly on strings that split on 'x' into two
components that both parse as u32. -/
theorem parse_size_ok_iff (size : String) :
    (∃ wh, parse_size size = .ok wh)
      ↔ ∃ ws hs w h, split_char 'x' size.data = [ws, hs]
          ∧ parse_u32_chars ws = some w ∧ parse_u32_chars hs = some h := by
  unfold parse_size
  rcases h : split_char 'x' size.data with _ | ⟨ws, rest⟩
  · simp
  · rcases rest with _ | ⟨hs0, rest2⟩
    · simp
    · rcases rest2 with _ | ⟨z, zs⟩
      · rcases hw : parse_u32_chars ws with _ | w
        · simp [hw]
        · rcases hh : parse_u32_chars hs0 with _ | hv
          · simp [hw, hh]
          · constructor
            · intro _
              exact ⟨ws, hs0, w, hv, rfl, hw, hh⟩
            · intro _
              exact ⟨(w, hv), by simp [hw, hh]⟩
      · simp

/-- The pipeline reaches the decode stage exactly when the size string
parses. -/
theorem process_image_decode_iff (size fmt : String) (outDir : Option String)
    (img : ImageInput) :
    Event.decode ∈ (process_image size fmt outDir img).1
      ↔ ∃ wh, parse_size size = .ok wh := by
  rcases hps : parse_size size with e | wh
  · rw [process_image_size_error size fmt outDir img e hps]
    simp
  · constructor
    · intro _
      exact ⟨wh, rfl⟩
    · intro _
      unfold process_image
      rw [hps]
      cases hd : img.decodeOk with
      | false => simp
      | true =>
        simp only [if_true]
        rcases hf : determine_image_format fmt with msg | f
        · simp
        · rcases hop : determine_output_path img.stem fmt outDir img.srcParent with _ | p
          · simp
          · cases hm : img.mkdirOk <;> cases hsv : img.saveOk <;> simp

/-- C7 (amended): the per-item task proceeds past size parsing (to the
decode stage) iff the size string splits on 'x' into exactly two
components each parsing as a u32 integer; any other size string makes
the task fail with a size/parse error before any image work; zero
components are accepted by the u32 parse. -/
theorem C7_size_parse_amended (size fmt : String) (outDir : Option String)
    (img : ImageInput) :
    (Event.decode ∈ (process_image size fmt outDir img).1
      ↔ ∃ ws hs w h, split_char 'x' size.data = [ws, hs]
          ∧ parse_u32_chars ws = some w ∧ parse_u32_chars hs = some h)
  ∧ (∀ e, parse_size size = .error e
      → process_image size fmt outDir img = ([Event.parseSize], .error e))
  ∧ parse_u32 "0" = some 0 := by
  refine ⟨?_, fun e he => process_image_size_error size fmt outDir img e he, by decide⟩
  exact (process_image_decode_iff size fmt outDir img).trans (parse_size_ok_iff size)

/-- C7 witness: a non-numeric size string stops the task at the parse
stage with a parse error. -/
theorem C7_size_parse_amended_witness :
    process_image "axb" "jpg" none goodImg
      = ([Event.parseSize], .error .parseIntError) :=
  (C7_size_parse_amended "axb" "jpg" none goodImg).2.1 .parseIntError (by decide)

/-! C9 -/

/-- C9 (counterexample): the detector model is parsed from the embedded
bytes inside the processing of each individual image — a batch of two
decodable images performs two model parses, not a single one at process
start. -/
theorem C9_model_reload_counterexample :
    Event.readModel ∈ (process_image "2000x2000" "jpg" none imgA).1
  ∧ Event.readModel ∈ (process_image "2000x2000" "jpg" none imgC).1
  ∧ (batch_trace "2000x2000" "jpg" none
        [.file imgA, .file imgC]).count Event.readModel = 2 := by decide

/-- Unfolding the batch trace over a cons cell. -/
theorem batch_trace_cons (s f : String) (o : Option String) (e : DirEntry)
    (es : List DirEntry) :
    batch_trace s f o (e :: es) = entry_trace s f o e ++ batch_trace s f o es := rfl

/-- With a parsable size string, each decodable image's pipeline run
parses the model exactly once. -/
theorem process_image_readModel_count (size fmt : String) (outDir : Option String)
    (img : ImageInput) (wh : Nat × Nat) (hps : parse_size size = .ok wh)
    (hd : img.decodeOk = true) :
    ((process_image size fmt outDir img).1.count Event.readModel) = 1 := by
  rcases hf : determine_image_format fmt with msg | f
  · have htr : (process_image size fmt outDir img).1
        = [Event.parseSize, .decode, .readModel, .detectFaces, .cropOp, .resample]
            ++ [Event.formatCheck] := by
      unfold process_image
      rw [hps]
      simp [hd, hf]
    rw [htr]
    decide
  · rcases hop : determine_output_path img.stem fmt outDir img.srcParent with _ | p
    · have htr : (process_image size fmt outDir img).1
          = [Event.parseSize, .decode, .readModel, .detectFaces, .cropOp, .resample]
              ++ [Event.formatCheck] := by
        unfold process_image
        rw [hps]
        simp [hd, hf, hop]
      rw [htr]
      decide
    · cases hm : img.mkdirOk with
      | false =>
        have htr : (process_image size fmt outDir img).1
            = [Event.parseSize, .decode, .readModel, .detectFaces, .cropOp, .resample]
                ++ [Event.formatCheck, Event.createDir] := by
          unfold process_image
          rw [hps]
          simp [hd, hf, hop, hm]
        rw [htr]
        decide
      | true =>
        have htr : (process_image size fmt outDir img).1
            = [Event.parseSize, .decode, .readModel, .detectFaces, .cropOp, .resample]
                ++ [Event.formatCheck, Event.createDir, Event.save] := by
          unfold process_image
          rw [hps]
          cases hsv : img.saveOk <;> simp [hd, hf, hop, hm, hsv]
        rw [htr]
        decide

/-- Each entry's trace parses the model once per decodable file. -/
theorem entry_trace_readModel_count (size fmt : String) (outDir : Option String)
    (e : DirEntry) (wh : Nat × Nat) (hps : parse_size size = .ok wh) :
    ((entry_trace size fmt outDir e).count Event.readModel)
      = if is_decodable_file e then 1 else 0 := by
  cases e with
  | readErr => rfl
  | file img =>
    cases hd : img.decodeOk with
    | false => simp [entry_trace, hd, is_decodable_file]
    | true =>
      simp only [entry_trace, hd, if_true, is_decodable_file, List.count_cons]
      rw [process_image_readModel_count size fmt outDir img wh hps hd]
      decide

/-- C9 (amended): the embedded model bytes are a compile-time constant,
but the model is re-parsed from them inside each per-item task: over any
batch (with a parsable size string) the number of model parses equals the
number of decodable file entries — one per processed image, not one per
process. -/
theorem C9_model_reload_amended (size fmt : String) (outDir : Option String)
    (entries : List DirEntry) (wh : Nat × Nat) (hps : parse_size size = .ok wh) :
    (batch_trace size fmt outDir entries).count Event.readModel
      = (entries.filter is_decodable_file).length := by
  induction entries with
  | nil => rfl
  | cons e es ih =>
    rw [batch_trace_cons, List.count_append, ih,
      entry_trace_readModel_count size fmt outDir e wh hps, List.filter_cons]
    cases h : is_decodable_file e <;> simp [h] <;> omega

/-- C9 witness: the concrete three-entry batch performs exactly two model
parses (one per decodable image). -/
theorem C9_model_reload_amended_witness :
    (batch_trace "2000x2000" "jpg" none
        [.file imgA, .file imgB, .file imgC]).count Event.readModel = 2 :=
  (C9_model_reload_amended "2000x2000" "jpg" none
      [.file imgA, .file imgB, .file imgC] (2000, 2000) (by decide)).trans (by decide)

end Imgrszr
